import Mathlib

/-!
Verification development for the Maa Express category1 purchase /
payment / handover workflow. The definitions below are shallow
embeddings of the route handlers in src/blueprints/category1.py,
src/blueprints/account.py, src/blueprints/admin.py and of the helpers
in src/utils/phone_utils.py and src/utils/payment_utils.py. Database
rows become Lean structures, a route handler becomes a function from
the pre-state (plus request data) to a result tag and the post-state,
and the random code generator is externalized as an argument together
with a predicate describing the shape of its output.
-/

namespace MaaExpress

/-- Characters removed by the Python str.strip method when called with
no argument (ASCII whitespace). -/
def isSpaceChar (c : Char) : Bool :=
  c = ' ' || c = '\t' || c = '\n' || c = '\r' || c = '\x0B' || c = '\x0C'

/-- Uppercasing of one character as Python str.upper does on ASCII:
codepoints 97 to 122 (lowercase letters) are shifted down by 32, all
other characters relevant to this app are left unchanged. -/
def upperChar (c : Char) : Char :=
  if 97 ≤ c.toNat && c.toNat ≤ 122 then Char.ofNat (c.toNat - 32) else c

/-- Python s.strip(): drop whitespace from both ends of the string. -/
def pyStrip (s : String) : String :=
  ⟨((s.data.dropWhile isSpaceChar).reverse.dropWhile isSpaceChar).reverse⟩

/-- Python s.upper(). -/
def pyUpper (s : String) : String :=
  ⟨s.data.map upperChar⟩

/-- Normalization the verification routes apply to an entered code:
data.get(...).strip().upper(). -/
def normEntered (s : String) : String :=
  pyUpper (pyStrip s)

/-- Python slice s[:n]. -/
def pyTake (n : Nat) (s : String) : String :=
  ⟨s.data.take n⟩

/-- Row of the category1_buyer_info table carrying the fields the
blueprint handlers read and write (the order record of the spec).
Timestamps are abstracted to Nat, money and weight to Rat, nullable
columns to Option. -/
structure BuyerInfo where
  listing_id : Nat
  buyer_id : Nat
  receiver_fullname : String
  receiver_phone : String
  receiver_email : String
  delivery_address : String
  delivery_postcode : String
  delivery_country : String
  note : Option String
  purchased_weight : Rat
  purchase_price : Rat
  payment_method : String
  payment_status : String
  payment_transaction_id : Option String
  payment_receipt_url : Option String
  payment_reference : Option String
  status : String
  handover_code : String
  delivery_code : String
  handover_verified_at : Option Nat
  delivery_verified_at : Option Nat
  handover_attempts : Nat
  delivery_attempts : Nat
  handover_photo_url : Option String
  delivery_photo_url : Option String
  luggage_photo_url : Option String
  sender_id_url : Option String
deriving DecidableEq, Repr

/-- Category1 listing fields consumed by the purchase and visibility
code paths. The seller foreign key is called seller_id in
category1.py and user_id in account.py and phone_utils.py; both refer
to the same column and are embedded as seller_id. -/
structure Listing where
  id : Nat
  seller_id : Nat
  admin_status : String
  currency : String
  price_per_kg : Rat
  total_weight : Rat
  discount_percent : Rat
deriving DecidableEq, Repr

/-- Outcome tag of one POST to a verification route. -/
inductive VerifyResult where
  | unauthorized
  | alreadyVerified
  | wrongStatus
  | tooManyAttempts
  | emptyCode
  | success
  | wrongCode (attempts : Nat)
deriving DecidableEq, Repr

/-- POST branch of verify_handover in src/blueprints/category1.py
(route /sales/id/verify-handover). Guards run in source order: seller
authorization, already-verified, lifecycle status, attempt cap (which
itself commits status disputed), empty entered code, then the code
comparison entered == stored.upper(). -/
def cat1VerifyHandover (listingSellerId sessionUserId : Nat) (b : BuyerInfo)
    (raw : String) (now : Nat) : VerifyResult × BuyerInfo :=
  if listingSellerId ≠ sessionUserId then (.unauthorized, b)
  else if b.handover_verified_at.isSome then (.alreadyVerified, b)
  else if b.status ≠ "pending_handover" then (.wrongStatus, b)
  else if b.handover_attempts ≥ 5 then
    (.tooManyAttempts, { b with status := "disputed" })
  else
    let entered := normEntered raw
    if entered = "" then (.emptyCode, b)
    else if entered = pyUpper b.handover_code then
      (.success, { b with handover_verified_at := some now, status := "in_transit" })
    else
      (.wrongCode (b.handover_attempts + 1),
        { b with handover_attempts := b.handover_attempts + 1 })

/-- POST branch of verify_delivery in src/blueprints/category1.py,
identical in shape to the handover leg but over the delivery fields,
requiring status in_transit and advancing to delivered. -/
def cat1VerifyDelivery (listingSellerId sessionUserId : Nat) (b : BuyerInfo)
    (raw : String) (now : Nat) : VerifyResult × BuyerInfo :=
  if listingSellerId ≠ sessionUserId then (.unauthorized, b)
  else if b.delivery_verified_at.isSome then (.alreadyVerified, b)
  else if b.status ≠ "in_transit" then (.wrongStatus, b)
  else if b.delivery_attempts ≥ 5 then
    (.tooManyAttempts, { b with status := "disputed" })
  else
    let entered := normEntered raw
    if entered = "" then (.emptyCode, b)
    else if entered = pyUpper b.delivery_code then
      (.success, { b with delivery_verified_at := some now, status := "delivered" })
    else
      (.wrongCode (b.delivery_attempts + 1),
        { b with delivery_attempts := b.delivery_attempts + 1 })

/-- POST branch of verify_handover in src/blueprints/account.py
(route /account/verify-handover/id). This route checks only seller
authorization and a non-empty entered code: it has no lifecycle-status
guard, no already-verified guard and no attempt-cap guard before the
comparison. On a mismatch it increments the counter first and then
computes remaining = 5 - attempts (an integer that can go negative),
transitioning to disputed when remaining is not positive. -/
def acctVerifyHandover (listingSellerId sessionUserId : Nat) (b : BuyerInfo)
    (raw : String) (photo : Option String) (now : Nat) : VerifyResult × BuyerInfo :=
  if listingSellerId ≠ sessionUserId then (.unauthorized, b)
  else
    let entered := normEntered raw
    if entered = "" then (.emptyCode, b)
    else if entered ≠ pyUpper b.handover_code then
      let b1 := { b with handover_attempts := b.handover_attempts + 1 }
      let remaining : Int := 5 - (b1.handover_attempts : Int)
      if remaining ≤ 0 then (.tooManyAttempts, { b1 with status := "disputed" })
      else (.wrongCode b1.handover_attempts, b1)
    else
      let b1 := { b with handover_verified_at := some now, status := "in_transit" }
      let b2 :=
        match photo with
        | some p => if p ≠ "" then { b1 with handover_photo_url := some (pyTake 500 p) } else b1
        | none => b1
      (.success, b2)

/-- POST branch of verify_delivery in src/blueprints/account.py, the
delivery analogue of acctVerifyHandover (again with no status,
already-verified or pre-comparison attempt guard). -/
def acctVerifyDelivery (listingSellerId sessionUserId : Nat) (b : BuyerInfo)
    (raw : String) (photo : Option String) (now : Nat) : VerifyResult × BuyerInfo :=
  if listingSellerId ≠ sessionUserId then (.unauthorized, b)
  else
    let entered := normEntered raw
    if entered = "" then (.emptyCode, b)
    else if entered ≠ pyUpper b.delivery_code then
      let b1 := { b with delivery_attempts := b.delivery_attempts + 1 }
      let remaining : Int := 5 - (b1.delivery_attempts : Int)
      if remaining ≤ 0 then (.tooManyAttempts, { b1 with status := "disputed" })
      else (.wrongCode b1.delivery_attempts, b1)
    else
      let b1 := { b with delivery_verified_at := some now, status := "delivered" }
      let b2 :=
        match photo with
        | some p => if p ≠ "" then { b1 with delivery_photo_url := some (pyTake 500 p) } else b1
        | none => b1
      (.success, b2)

/-- Outcome tag of one POST to the payment processing route. -/
inductive PayResult where
  | unauthorized
  | invalidMethod
  | manualSubmitted
  | instantPaid
  | instantFailed
deriving DecidableEq, Repr

/-- valid_methods list of process_payment in src/blueprints/category1.py. -/
def validPaymentMethods : List String :=
  ["STRIPE", "PAYPAL", "WISE", "BANK_ACCOUNT", "BKASH_TO_BANK", "PAYID",
   "MOBILE_BANKING_BKASH_NAGAD"]

/-- Methods taking the manual branch of process_payment. -/
def manualPaymentMethods : List String :=
  ["BANK_ACCOUNT", "WISE", "BKASH_TO_BANK", "PAYID", "MOBILE_BANKING_BKASH_NAGAD"]

/-- process_payment in src/blueprints/category1.py. The external
gateway call for the two instant methods is abstracted into
gatewaySuccess (true exactly when an intent or order id was supplied
and the verify call against the gateway reported success) and
transactionId. Manual methods record the receipt and reference and set
payment_status to the literal value manual_pay, leaving the lifecycle
status untouched; a failed instant payment changes nothing. -/
def processPayment (b : BuyerInfo) (sessionUserId : Nat) (rawMethod : String)
    (receiptUrl paymentReference : String) (gatewaySuccess : Bool)
    (transactionId : Option String) : PayResult × BuyerInfo :=
  if b.buyer_id ≠ sessionUserId then (.unauthorized, b)
  else
    let method := pyUpper rawMethod
    if method ∉ validPaymentMethods then (.invalidMethod, b)
    else if method ∈ manualPaymentMethods then
      (.manualSubmitted,
        { b with payment_receipt_url := some (pyTake 500 receiptUrl),
                 payment_reference := some (pyTake 255 paymentReference),
                 payment_method := method,
                 payment_status := "manual_pay" })
    else if gatewaySuccess then
      (.instantPaid,
        { b with payment_status := "paid", payment_method := method,
                 payment_transaction_id := transactionId,
                 status := "pending_handover" })
    else (.instantFailed, b)

/-- Database effect of stripe_return in src/blueprints/category1.py
once the Stripe verify call has resolved: on success the order is
marked paid and moved to pending_handover, on failure nothing is
written. The paypal_return handler has the same shape. -/
def stripeReturn (b : BuyerInfo) (verifySuccess : Bool)
    (transactionId : Option String) : BuyerInfo :=
  if verifySuccess then
    { b with payment_status := "paid", payment_method := "STRIPE",
             payment_transaction_id := transactionId,
             status := "pending_handover" }
  else b

/-- Outcome tag of one POST to the document upload route. -/
inductive UploadResult where
  | unauthorized
  | paymentNotCompleted
  | senderIdRequired
  | uploaded
deriving DecidableEq, Repr

/-- POST branch of upload_documents in src/blueprints/category1.py.
The two code-generator calls are externalized as hCode and dCode; they
are requested only when the corresponding stored code still equals the
sentinel PENDING, and only after the mandatory sender identity
document (length at least 10) passed validation. -/
def uploadDocuments (b : BuyerInfo) (sessionUserId : Nat)
    (luggagePhotoUrl senderIdUrl : String) (hCode dCode : String) :
    UploadResult × BuyerInfo :=
  if b.buyer_id ≠ sessionUserId then (.unauthorized, b)
  else if b.payment_status ≠ "paid" then (.paymentNotCompleted, b)
  else if senderIdUrl = "" || senderIdUrl.length < 10 then (.senderIdRequired, b)
  else
    let b1 := { b with
      luggage_photo_url :=
        if luggagePhotoUrl ≠ "" then some (pyTake 500 luggagePhotoUrl) else none,
      sender_id_url := some (pyTake 500 senderIdUrl) }
    let b2 := if b1.handover_code = "PENDING" then { b1 with handover_code := hCode } else b1
    let b3 := if b2.delivery_code = "PENDING" then { b2 with delivery_code := dCode } else b2
    (.uploaded, b3)

/-- Outcome tag of one POST to the admin manual-payment route. -/
inductive AdminPayResult where
  | approved
  | rejected
  | rejectionReasonMissing
  | ignoredAction
deriving DecidableEq, Repr

/-- POST branch of verify_payment in src/blueprints/admin.py. Approval
generates fresh codes (externalized as hCode and dCode) and marks the
order paid and pending_handover, with no check of any uploaded
document; rejection requires a non-empty stripped reason, marks the
payment failed and the order payment_failed, and appends the reason to
the note field capped at 65000 characters. The timestamp inside the
appended note is abstracted as the string now. -/
def adminVerifyPayment (b : BuyerInfo) (action : String)
    (rejectionReasonRaw : String) (hCode dCode : String) (now : String) :
    AdminPayResult × BuyerInfo :=
  if action = "approve" then
    (.approved,
      { b with handover_code := hCode, delivery_code := dCode,
               payment_status := "paid", status := "pending_handover" })
  else if action = "reject" then
    let reason := pyStrip rejectionReasonRaw
    if reason = "" then (.rejectionReasonMissing, b)
    else
      let currentNote := b.note.getD ""
      let rejectionNote := "\n\n[ADMIN REJECTION - " ++ now ++ "]\n" ++ reason
      (.rejected,
        { b with payment_status := "failed", status := "payment_failed",
                 note := some (pyTake 65000 (currentNote ++ rejectionNote)) })
  else (.ignoredAction, b)

/-- Request payload of process_purchase. String fields model the JSON
values checked for presence by falsiness; purchased_weight_field is
the raw weight string whose presence is checked with the other seven
required fields, and purchased_weight_value is the result of the
Decimal parse of that string (none when the parse raises). -/
structure PurchaseForm where
  receiver_fullname : String
  receiver_phone : String
  receiver_email : String
  delivery_address : String
  delivery_postcode : String
  delivery_country : String
  purchased_weight_field : String
  payment_method : String
  note : Option String
  purchased_weight_value : Option Rat
deriving Repr

/-- Rejection causes of process_purchase, in source order. -/
inductive PurchaseErr where
  | listingNotFound
  | selfPurchase
  | missingFields
  | invalidPaymentMethod
  | invalidWeightValue
  | invalidWeightRange
deriving DecidableEq, Repr

/-- valid_payment_methods list of process_purchase. -/
def purchaseValidPaymentMethods : List String :=
  ["PAYPAL", "STRIPE", "WISE", "BANK_ACCOUNT", "MOBILE_BANKING_BKASH_NAGAD",
   "PAYID", "BKASH_TO_BANK"]

/-- process_purchase in src/blueprints/category1.py. The listing is
looked up filtered by admin_status approved (first_or_404); the
self-purchase guard runs before the request body is examined. On any
error branch no BuyerInfo row is created; on success the returned row
has payment_status pending, status pending_payment, both codes set to
the sentinel PENDING and both attempt counters zero. Price arithmetic
is carried out in Rat in place of Python floats. -/
def processPurchase (l : Listing) (sessionUserId : Nat) (f : PurchaseForm) :
    Except PurchaseErr BuyerInfo :=
  if l.admin_status ≠ "approved" then .error .listingNotFound
  else if l.seller_id = sessionUserId then .error .selfPurchase
  else if f.receiver_fullname = "" || f.receiver_phone = "" || f.receiver_email = ""
      || f.delivery_address = "" || f.delivery_postcode = "" || f.delivery_country = ""
      || f.purchased_weight_field = "" || f.payment_method = "" then
    .error .missingFields
  else
    let method := pyUpper f.payment_method
    if method ∉ purchaseValidPaymentMethods then .error .invalidPaymentMethod
    else
      match f.purchased_weight_value with
      | none => .error .invalidWeightValue
      | some w =>
        if w ≤ 0 || l.total_weight < w then .error .invalidWeightRange
        else
          let basePrice := l.price_per_kg * w
          let discountAmount := basePrice * (l.discount_percent / 100)
          let totalPrice0 := basePrice - discountAmount
          let totalPrice := if totalPrice0 ≤ 0 then (1 : Rat) / 100 else totalPrice0
          .ok
            { listing_id := l.id
              buyer_id := sessionUserId
              receiver_fullname := pyTake 255 f.receiver_fullname
              receiver_phone := pyTake 30 f.receiver_phone
              receiver_email := pyTake 255 f.receiver_email
              delivery_address := f.delivery_address
              delivery_postcode := pyTake 20 f.delivery_postcode
              delivery_country := pyTake 255 f.delivery_country
              note :=
                match f.note with
                | some n => if n ≠ "" then some (pyTake 1000 n) else none
                | none => none
              purchased_weight := w
              purchase_price := totalPrice
              payment_method := method
              payment_status := "pending"
              payment_transaction_id := none
              payment_receipt_url := none
              payment_reference := none
              status := "pending_payment"
              handover_code := "PENDING"
              delivery_code := "PENDING"
              handover_verified_at := none
              delivery_verified_at := none
              handover_attempts := 0
              delivery_attempts := 0
              handover_photo_url := none
              delivery_photo_url := none
              luggage_photo_url := none
              sender_id_url := none }

/-- Filter applied by the detail view of src/blueprints/category1.py
when it looks for a paid purchase of the current user. -/
def paidPurchaseFor (userId listingId : Nat) (p : BuyerInfo) : Bool :=
  p.listing_id = listingId && p.buyer_id = userId && p.payment_status = "paid"

/-- seller_contact_visible computed by the detail route of
src/blueprints/category1.py: false for anonymous visitors, otherwise
true exactly when a purchase row of this user for this listing with
payment_status paid exists. -/
def detailSellerContactVisible (sessionUserId : Option Nat) (listingId : Nat)
    (purchases : List BuyerInfo) : Bool :=
  match sessionUserId with
  | none => false
  | some uid => purchases.any (paidPurchaseFor uid listingId)

/-- buyer_contact_visible flag computed by the sales dashboard and by
the GET branches of all four verification routes. -/
def buyerContactVisible (b : BuyerInfo) : Bool :=
  b.payment_status == "paid"

/-- can_view_full_phone in src/utils/phone_utils.py: true when the
user owns the listing, or when any purchase row of this user for this
listing exists, with no condition on its payment_status. -/
def can_view_full_phone (userId listingId : Nat) (listings : List Listing)
    (purchases : List BuyerInfo) : Bool :=
  (match listings.find? (fun l => l.id = listingId) with
   | some l => l.seller_id = userId
   | none => false)
  || purchases.any (fun p => p.listing_id = listingId && p.buyer_id = userId)

/-- purchase_success route of src/blueprints/category1.py: none models
a redirect away (page not rendered), some flag models the rendered
page with its seller_contact_visible value, which the source sets to
the constant True after the guards have passed. -/
def purchaseSuccessSellerContactVisible (b : BuyerInfo) (sessionUserId : Nat) :
    Option Bool :=
  if b.buyer_id ≠ sessionUserId then none
  else if b.payment_status ≠ "paid" then none
  else if b.sender_id_url.isNone || b.handover_code = "PENDING" then none
  else some true

/-- Modelled from the spec: contact visibility as section 4.4 words it,
visible exactly when a purchase record with payment_status paid exists
for this user and listing. Stated for comparison with the read paths
embedded above. -/
def specContactVisible (userId listingId : Nat) (purchases : List BuyerInfo) : Bool :=
  purchases.any (paidPurchaseFor userId listingId)

/-- Membership test for the alphabet string.ascii_uppercase +
string.digits used by the code generators (ASCII 65 to 90 and 48
to 57). -/
def genChar (c : Char) : Bool :=
  (65 ≤ c.toNat && c.toNat ≤ 90) || (48 ≤ c.toNat && c.toNat ≤ 57)

/-- Shape of every output of generate_handover_code and
generate_delivery_code in src/utils/payment_utils.py: exactly 8
characters, each drawn from the uppercase alphanumeric alphabet. -/
def isGeneratedCode (s : String) : Bool :=
  s.data.length = 8 && s.data.all genChar

instance : DecidableEq (Except PurchaseErr BuyerInfo) := fun a b =>
  match a, b with
  | .ok x, .ok y => decidable_of_iff (x = y) (by simp)
  | .error x, .error y => decidable_of_iff (x = y) (by simp)
  | .ok _, .error _ => isFalse (by simp)
  | .error _, .ok _ => isFalse (by simp)

/-- Characters of the generator alphabet are left fixed by Python
str.upper, since none of them is a lowercase letter. -/
lemma upperChar_eq_of_genChar {c : Char} (h : genChar c = true) : upperChar c = c := by
  have h' : ¬ (97 ≤ c.toNat && c.toNat ≤ 122) = true := by
    unfold genChar at h
    simp only [Bool.or_eq_true, Bool.and_eq_true, decide_eq_true_eq] at h ⊢
    omega
  unfold upperChar
  rw [if_neg h']

lemma map_upperChar_eq_self {l : List Char} (h : ∀ c ∈ l, genChar c = true) :
    l.map upperChar = l := by
  induction l with
  | nil => rfl
  | cons a t ih =>
    simp only [List.map_cons]
    rw [upperChar_eq_of_genChar (h a (List.mem_cons_self a t)),
      ih (fun c hc => h c (List.mem_cons_of_mem a hc))]

/-- Stored generated codes are unchanged by the .upper() call the
comparison applies to them. -/
lemma pyUpper_of_generated {s : String} (h : isGeneratedCode s = true) :
    pyUpper s = s := by
  unfold isGeneratedCode at h
  simp only [Bool.and_eq_true, List.all_eq_true, decide_eq_true_eq] at h
  cases s with
  | mk data =>
    show String.mk (data.map upperChar) = String.mk data
    rw [map_upperChar_eq_self h.2]

/-- Generated codes are never the empty string. -/
lemma generated_ne_empty {s : String} (h : isGeneratedCode s = true) : s ≠ "" := by
  unfold isGeneratedCode at h
  simp only [Bool.and_eq_true, List.all_eq_true, decide_eq_true_eq] at h
  intro he
  rw [he] at h
  simp at h

/-!
Concrete fixtures used by counterexamples and witnesses. baseOrder is
exactly the row process_purchase creates for a 2 kg purchase of
sampleListing (listing 1, seller 7, 10 per kg, no discount) by buyer 2
paying by bank account, as sampleProcessPurchase below verifies.
-/

def sampleListing : Listing where
  id := 1
  seller_id := 7
  admin_status := "approved"
  currency := "AUD"
  price_per_kg := 10
  total_weight := 20
  discount_percent := 0

def sampleForm : PurchaseForm where
  receiver_fullname := "R"
  receiver_phone := "+10000000"
  receiver_email := "r@x.com"
  delivery_address := "addr"
  delivery_postcode := "2000"
  delivery_country := "AU"
  purchased_weight_field := "2"
  payment_method := "bank_account"
  note := none
  purchased_weight_value := some 2

def baseOrder : BuyerInfo where
  listing_id := 1
  buyer_id := 2
  receiver_fullname := "R"
  receiver_phone := "+10000000"
  receiver_email := "r@x.com"
  delivery_address := "addr"
  delivery_postcode := "2000"
  delivery_country := "AU"
  note := none
  purchased_weight := 2
  purchase_price := 20
  payment_method := "BANK_ACCOUNT"
  payment_status := "pending"
  payment_transaction_id := none
  payment_receipt_url := none
  payment_reference := none
  status := "pending_payment"
  handover_code := "PENDING"
  delivery_code := "PENDING"
  handover_verified_at := none
  delivery_verified_at := none
  handover_attempts := 0
  delivery_attempts := 0
  handover_photo_url := none
  delivery_photo_url := none
  luggage_photo_url := none
  sender_id_url := none

/-- Projection of an order forgetting the two Rat amount fields. Used
to state concrete evaluations of the purchase path without forcing
rational arithmetic, whose kernel reduction is blocked by the
well-founded recursion inside Rat normalization. -/
def eraseAmounts (b : BuyerInfo) : BuyerInfo :=
  { b with purchased_weight := 0, purchase_price := 0 }

/-- Sanity check tying the fixture to the purchase path: baseOrder is,
up to the Rat amount fields, the row process_purchase creates for
sampleListing and sampleForm. -/
lemma sampleProcessPurchase :
    (processPurchase sampleListing 2 sampleForm).map eraseAmounts
      = .ok (eraseAmounts baseOrder) := by
  decide

/-- C1 (amended): the listing detail view computes seller-contact
visibility exactly as existence of a purchase record of the current
user with payment_status paid, and shows nothing to anonymous
visitors; the sales dashboard and the GET branches of the verification
routes expose buyer contact exactly when payment_status is paid; the
purchase-success page renders its constant-true visibility flag only
behind a payment_status paid guard; but can_view_full_phone grants
full phone visibility to any user who merely possesses a purchase
record for the listing, whatever its payment_status, so a paid
purchase is not the sole unlocking condition on that read path. -/
theorem C1_contact_visibility :
    (∀ uid listingId purchases,
        detailSellerContactVisible (some uid) listingId purchases
          = specContactVisible uid listingId purchases) ∧
    (∀ listingId purchases,
        detailSellerContactVisible none listingId purchases = false) ∧
    (∀ b, buyerContactVisible b = true ↔ b.payment_status = "paid") ∧
    (∀ b uid flag, purchaseSuccessSellerContactVisible b uid = some flag →
        b.payment_status = "paid") ∧
    (∀ uid listingId listings purchases (p : BuyerInfo), p ∈ purchases →
        p.listing_id = listingId → p.buyer_id = uid →
        can_view_full_phone uid listingId listings purchases = true) := by
  refine ⟨fun uid listingId purchases => rfl, fun listingId purchases => rfl, ?_, ?_, ?_⟩
  · intro b
    simp [buyerContactVisible]
  · intro b uid flag h
    unfold purchaseSuccessSellerContactVisible at h
    by_cases h1 : b.buyer_id ≠ uid
    · rw [if_pos h1] at h
      exact absurd h (by simp)
    · rw [if_neg h1] at h
      by_cases h2 : b.payment_status ≠ "paid"
      · rw [if_pos h2] at h
        exact absurd h (by simp)
      · exact not_ne_iff.mp h2
  · intro uid listingId listings purchases p hmem h1 h2
    have hany : purchases.any (fun p => p.listing_id = listingId && p.buyer_id = uid) = true :=
      List.any_eq_true.mpr ⟨p, hmem, by simp [h1, h2]⟩
    unfold can_view_full_phone
    rw [hany, Bool.or_true]

/-- C1 counterexample: user 2 holds a purchase record for listing 1
whose payment_status is still pending; can_view_full_phone already
grants visibility although no paid purchase exists, refuting the claim
that payment_status paid is the sole gate on every read path. -/
theorem C1_counterexample :
    can_view_full_phone 2 1 [sampleListing] [baseOrder] = true ∧
    specContactVisible 2 1 [baseOrder] = false ∧
    baseOrder.payment_status = "pending" := by
  decide

/-- C1 witness: the amended theorem applied to the concrete unpaid
purchase record of the counterexample scenario. -/
theorem C1_witness :
    can_view_full_phone 2 1 [sampleListing] [baseOrder] = true :=
  C1_contact_visibility.2.2.2.2 2 1 [sampleListing] [baseOrder] baseOrder
    (List.mem_singleton.mpr rfl) rfl rfl

/-- State of the sample order right after a successful instant (Stripe)
payment: paid and pending_handover, with both codes still the sentinel
because the document-upload step has not run yet. -/
def c2Paid : BuyerInfo :=
  { baseOrder with
    payment_status := "paid"
    payment_method := "STRIPE"
    payment_transaction_id := some "tx"
    status := "pending_handover" }

/-- C2: the verification comparison accepts the sentinel. After an
instant payment succeeds the order is in pending_handover with both
codes still the placeholder PENDING, and a seller submitting the
literal string PENDING (also in a case and whitespace variant) passes
the comparison on the category1 route as well as on the account route,
for either leg, while the claim requires every such attempt to fail. -/
theorem C2_sentinel_accepted :
    (processPayment baseOrder 2 "STRIPE" "" "" true (some "tx")).2 = c2Paid ∧
    c2Paid.handover_code = "PENDING" ∧
    (cat1VerifyHandover 7 7 c2Paid " pending " 99).1 = .success ∧
    (cat1VerifyHandover 7 7 c2Paid " pending " 99).2.status = "in_transit" ∧
    (acctVerifyHandover 7 7 c2Paid "PENDING" none 99).1 = .success ∧
    (acctVerifyDelivery 7 7 c2Paid "pending" none 99).1 = .success := by
  decide

/-- Order on the category1 handover leg with four failed attempts
already recorded. -/
def c3Four : BuyerInfo :=
  { baseOrder with
    payment_status := "paid"
    status := "pending_handover"
    handover_code := "A1B2C3D4"
    delivery_code := "E5F6G7H8"
    handover_attempts := 4 }

/-- Same order after a fifth failed attempt on the category1 route. -/
def c3Five : BuyerInfo :=
  { c3Four with handover_attempts := 5 }

/-- C3 counterexample: on the category1 route the request carrying the
5th consecutive wrong handover code leaves the order in
pending_handover with the counter at 5 instead of forcing disputed in
that same request; and the unguarded account route then performs a 6th
comparison and pushes the counter to 6. -/
theorem C3_counterexample :
    (cat1VerifyHandover 7 7 c3Four "WRONG111" 0).2.handover_attempts = 5 ∧
    (cat1VerifyHandover 7 7 c3Four "WRONG111" 0).2.status = "pending_handover" ∧
    (acctVerifyHandover 7 7 c3Five "WRONG111" none 0).2.handover_attempts = 6 ∧
    (acctVerifyHandover 7 7 c3Five "WRONG111" none 0).2.status = "disputed" := by
  decide

/-- C3 (amended): attempt counters never decrease on any verification
route. On the category1 route each counter never exceeds 5, and a
request arriving at the cap is rejected and forces disputed before any
code comparison, so the 5th wrong entry leaves the order in its
current status with the counter at 5 and the dispute transition
happens at the start of the following request. On the account route a
wrong entry that brings the counter to 5 or beyond forces disputed
within that same request, but the comparison and increment are not
guarded there, so interleaving with the category1 route can push the
counter past 5. -/
theorem C3_attempt_counters :
    (∀ sid uid b raw now,
        b.handover_attempts ≤ (cat1VerifyHandover sid uid b raw now).2.handover_attempts) ∧
    (∀ sid uid b raw now,
        b.delivery_attempts ≤ (cat1VerifyDelivery sid uid b raw now).2.delivery_attempts) ∧
    (∀ sid uid b raw photo now,
        b.handover_attempts ≤ (acctVerifyHandover sid uid b raw photo now).2.handover_attempts) ∧
    (∀ sid uid b raw photo now,
        b.delivery_attempts ≤ (acctVerifyDelivery sid uid b raw photo now).2.delivery_attempts) ∧
    (∀ sid uid b raw now, b.handover_attempts ≤ 5 →
        (cat1VerifyHandover sid uid b raw now).2.handover_attempts ≤ 5) ∧
    (∀ sid uid b raw now, b.delivery_attempts ≤ 5 →
        (cat1VerifyDelivery sid uid b raw now).2.delivery_attempts ≤ 5) ∧
    (∀ sid uid b raw now, sid = uid → b.handover_verified_at = none →
        b.status = "pending_handover" → 5 ≤ b.handover_attempts →
        cat1VerifyHandover sid uid b raw now
          = (.tooManyAttempts, { b with status := "disputed" })) ∧
    (∀ sid uid b raw now, sid = uid → b.delivery_verified_at = none →
        b.status = "in_transit" → 5 ≤ b.delivery_attempts →
        cat1VerifyDelivery sid uid b raw now
          = (.tooManyAttempts, { b with status := "disputed" })) ∧
    (∀ sid uid b raw photo now, sid = uid → normEntered raw ≠ "" →
        normEntered raw ≠ pyUpper b.handover_code → 4 ≤ b.handover_attempts →
        (acctVerifyHandover sid uid b raw photo now).1 = .tooManyAttempts ∧
        (acctVerifyHandover sid uid b raw photo now).2.status = "disputed") ∧
    (∀ sid uid b raw photo now, sid = uid → normEntered raw ≠ "" →
        normEntered raw ≠ pyUpper b.delivery_code → 4 ≤ b.delivery_attempts →
        (acctVerifyDelivery sid uid b raw photo now).1 = .tooManyAttempts ∧
        (acctVerifyDelivery sid uid b raw photo now).2.status = "disputed") := by
  refine ⟨?_, ?_, ?_, ?_, ?_, ?_, ?_, ?_, ?_, ?_⟩
  · intro sid uid b raw now
    simp only [cat1VerifyHandover]
    split_ifs <;> first | exact le_rfl | exact Nat.le_succ _
  · intro sid uid b raw now
    simp only [cat1VerifyDelivery]
    split_ifs <;> first | exact le_rfl | exact Nat.le_succ _
  · intro sid uid b raw photo now
    cases photo <;>
      (simp only [acctVerifyHandover]
       split_ifs <;> first | exact le_rfl | exact Nat.le_succ _)
  · intro sid uid b raw photo now
    cases photo <;>
      (simp only [acctVerifyDelivery]
       split_ifs <;> first | exact le_rfl | exact Nat.le_succ _)
  · intro sid uid b raw now h
    simp only [cat1VerifyHandover]
    split_ifs with g1 g2 g3 g4 g5 g6 <;>
      first
        | exact h
        | (show b.handover_attempts + 1 ≤ 5
           omega)
  · intro sid uid b raw now h
    simp only [cat1VerifyDelivery]
    split_ifs with g1 g2 g3 g4 g5 g6 <;>
      first
        | exact h
        | (show b.delivery_attempts + 1 ≤ 5
           omega)
  · intro sid uid b raw now h1 h2 h3 h4
    simp only [cat1VerifyHandover]
    rw [if_neg (fun hn => hn h1), if_neg (by rw [h2]; simp), if_neg (not_not_intro h3),
      if_pos h4]
  · intro sid uid b raw now h1 h2 h3 h4
    simp only [cat1VerifyDelivery]
    rw [if_neg (fun hn => hn h1), if_neg (by rw [h2]; simp), if_neg (not_not_intro h3),
      if_pos h4]
  · intro sid uid b raw photo now h1 h2 h3 h4
    simp only [acctVerifyHandover]
    split_ifs with g1 g2
    · exact absurd h1 g1
    · exact ⟨rfl, rfl⟩
    · exact absurd
        (show (5 : Int) - ((b.handover_attempts + 1 : Nat) : Int) ≤ 0 by omega) g2
  · intro sid uid b raw photo now h1 h2 h3 h4
    simp only [acctVerifyDelivery]
    split_ifs with g1 g2
    · exact absurd h1 g1
    · exact ⟨rfl, rfl⟩
    · exact absurd
        (show (5 : Int) - ((b.delivery_attempts + 1 : Nat) : Int) ≤ 0 by omega) g2

/-- C3 witness: the amended theorem applied at the concrete order that
has reached the cap on the category1 route: the next request is
rejected without a comparison and forces disputed. -/
theorem C3_witness :
    cat1VerifyHandover 7 7 c3Five "IRRELEV1" 0
      = (.tooManyAttempts, { c3Five with status := "disputed" }) :=
  C3_attempt_counters.2.2.2.2.2.2.1 7 7 c3Five "IRRELEV1" 0 rfl rfl rfl (by decide)

/-- C4 counterexample: on the account route a seller verifies handover
while the order is still in pending_payment (before any payment, with
the code still the sentinel), and the same route also re-verifies a
leg that already has a verified-at timestamp; the claim requires every
route to reject both. -/
theorem C4_counterexample :
    baseOrder.status = "pending_payment" ∧
    (acctVerifyHandover 7 7 baseOrder "PENDING" none 5).1 = .success ∧
    (acctVerifyHandover 7 7 baseOrder "PENDING" none 5).2.status = "in_transit" ∧
    (acctVerifyHandover 7 7 { baseOrder with handover_verified_at := some 3 }
        "PENDING" none 5).1 = .success := by
  decide

/-- C4 (amended): the category1 route enforces the claimed
preconditions — handover requires status pending_handover, delivery
requires in_transit, and a leg with a verified-at timestamp is
rejected; the account route enforces neither: any entry matching the
stored code succeeds there irrespective of the lifecycle status or an
existing verified-at timestamp. -/
theorem C4_state_preconditions :
    (∀ sid uid b raw now, sid = uid → b.handover_verified_at = none →
        b.status ≠ "pending_handover" →
        cat1VerifyHandover sid uid b raw now = (.wrongStatus, b)) ∧
    (∀ sid uid b raw now, sid = uid → b.handover_verified_at.isSome →
        cat1VerifyHandover sid uid b raw now = (.alreadyVerified, b)) ∧
    (∀ sid uid b raw now, sid = uid → b.delivery_verified_at = none →
        b.status ≠ "in_transit" →
        cat1VerifyDelivery sid uid b raw now = (.wrongStatus, b)) ∧
    (∀ sid uid b raw now, sid = uid → b.delivery_verified_at.isSome →
        cat1VerifyDelivery sid uid b raw now = (.alreadyVerified, b)) ∧
    (∀ sid uid b raw photo now, sid = uid → normEntered raw ≠ "" →
        normEntered raw = pyUpper b.handover_code →
        (acctVerifyHandover sid uid b raw photo now).1 = .success) ∧
    (∀ sid uid b raw photo now, sid = uid → normEntered raw ≠ "" →
        normEntered raw = pyUpper b.delivery_code →
        (acctVerifyDelivery sid uid b raw photo now).1 = .success) := by
  refine ⟨?_, ?_, ?_, ?_, ?_, ?_⟩
  · intro sid uid b raw now h1 h2 h3
    simp only [cat1VerifyHandover]
    rw [if_neg (fun hn => hn h1), if_neg (by rw [h2]; simp), if_pos h3]
  · intro sid uid b raw now h1 h2
    simp only [cat1VerifyHandover]
    rw [if_neg (fun hn => hn h1), if_pos h2]
  · intro sid uid b raw now h1 h2 h3
    simp only [cat1VerifyDelivery]
    rw [if_neg (fun hn => hn h1), if_neg (by rw [h2]; simp), if_pos h3]
  · intro sid uid b raw now h1 h2
    simp only [cat1VerifyDelivery]
    rw [if_neg (fun hn => hn h1), if_pos h2]
  · intro sid uid b raw photo now h1 h2 h3
    simp only [acctVerifyHandover]
    rw [if_neg (fun hn => hn h1), if_neg h2, if_neg (not_not_intro h3)]
  · intro sid uid b raw photo now h1 h2 h3
    simp only [acctVerifyDelivery]
    rw [if_neg (fun hn => hn h1), if_neg h2, if_neg (not_not_intro h3)]

/-- C4 witness: the amended theorem applied at a concrete order still
in pending_payment, rejected on the category1 route. -/
theorem C4_witness :
    cat1VerifyHandover 7 7 baseOrder "ABCD1234" 0 = (.wrongStatus, baseOrder) :=
  C4_state_preconditions.1 7 7 baseOrder "ABCD1234" 0 rfl rfl (by decide)

/-- State of the sample order after the buyer submitted a manual bank
payment: receipt and reference stored, payment_status manual_pay,
lifecycle status unchanged, still no sender identity document. -/
def c5Manual : BuyerInfo :=
  { baseOrder with
    payment_receipt_url := some "http://r/x.png"
    payment_reference := some "ref-1"
    payment_status := "manual_pay" }

/-- C5 counterexample: the admin manual-approval path generates real
codes with no document check. After purchase and manual payment
submission the order has no sender identity document, yet admin
approval stores a real 8-character generated code while sender_id_url
is still absent, refuting the claim that on every path to paid no
state holds a real code before the sender identity document exists. -/
theorem C5_counterexample :
    processPayment baseOrder 2 "BANK_ACCOUNT" "http://r/x.png" "ref-1" false none
      = (.manualSubmitted, c5Manual) ∧
    c5Manual.sender_id_url = none ∧
    (adminVerifyPayment c5Manual "approve" "" "A1B2C3D4" "E5F6G7H8" "t").2.handover_code
      = "A1B2C3D4" ∧
    isGeneratedCode "A1B2C3D4" = true ∧
    (adminVerifyPayment c5Manual "approve" "" "A1B2C3D4" "E5F6G7H8" "t").2.sender_id_url
      = none ∧
    (adminVerifyPayment c5Manual "approve" "" "A1B2C3D4" "E5F6G7H8" "t").2.payment_status
      = "paid" := by
  decide

/-- C5 (amended): on the instant-payment path the claim holds — the
payment step itself never writes codes, the upload step leaves the
order unchanged unless it returns uploaded, and when it does the
sender identity document (length at least 10) is stored and the codes
are replaced exactly when they were still the sentinel; but on the
admin manual-approval path codes are generated at approval time
regardless of whether any sender identity document exists, with
sender_id_url left untouched. -/
theorem C5_code_generation :
    (∀ b uid lug sid h d r b2, uploadDocuments b uid lug sid h d = (r, b2) →
        r ≠ .uploaded → b2 = b) ∧
    (∀ b uid lug sid h d, (uploadDocuments b uid lug sid h d).1 = .uploaded →
        b.payment_status = "paid" ∧ 10 ≤ sid.length ∧
        (uploadDocuments b uid lug sid h d).2.sender_id_url = some (pyTake 500 sid)) ∧
    (∀ b uid lug sid h d, (uploadDocuments b uid lug sid h d).1 = .uploaded →
        ((b.handover_code = "PENDING" →
            (uploadDocuments b uid lug sid h d).2.handover_code = h) ∧
         (b.handover_code ≠ "PENDING" →
            (uploadDocuments b uid lug sid h d).2.handover_code = b.handover_code) ∧
         (b.delivery_code = "PENDING" →
            (uploadDocuments b uid lug sid h d).2.delivery_code = d) ∧
         (b.delivery_code ≠ "PENDING" →
            (uploadDocuments b uid lug sid h d).2.delivery_code = b.delivery_code))) ∧
    (∀ b uid m receipt ref g tx,
        (processPayment b uid m receipt ref g tx).2.handover_code = b.handover_code ∧
        (processPayment b uid m receipt ref g tx).2.delivery_code = b.delivery_code) ∧
    (∀ b reason h d now,
        (adminVerifyPayment b "approve" reason h d now).2.handover_code = h ∧
        (adminVerifyPayment b "approve" reason h d now).2.delivery_code = d ∧
        (adminVerifyPayment b "approve" reason h d now).2.sender_id_url
          = b.sender_id_url) := by
  refine ⟨?_, ?_, ?_, ?_, ?_⟩
  · intro b uid lug sid h d r b2 he hr
    simp only [uploadDocuments] at he
    split_ifs at he <;> cases he <;> first | rfl | exact absurd rfl hr
  · intro b uid lug sid h d hu
    simp only [uploadDocuments] at hu ⊢
    split_ifs at hu ⊢ with g1 g2 g3
    all_goals
      exact ⟨not_ne_iff.mp g2, le_of_not_lt (fun hl => g3 (by simp [hl])), rfl⟩
  · intro b uid lug sid h d hu
    simp only [uploadDocuments] at hu ⊢
    split_ifs at hu ⊢
    all_goals
      refine ⟨fun hx => ?_, fun hx => ?_, fun hx => ?_, fun hx => ?_⟩ <;>
        first
          | rfl
          | exact absurd hx (by assumption)
          | exact absurd (by assumption) hx
  · intro b uid m receipt ref g tx
    simp only [processPayment]
    split_ifs <;> exact ⟨rfl, rfl⟩
  · intro b reason h d now
    simp only [adminVerifyPayment]
    exact ⟨rfl, rfl, rfl⟩

/-- Order after instant payment whose documents are not yet uploaded,
used to witness the upload-step behaviour. -/
def c5PaidNoDocs : BuyerInfo :=
  { baseOrder with
    payment_status := "paid"
    status := "pending_handover" }

/-- C5 witness: the amended theorem applied at the concrete upload
that supplies a sender identity document. -/
theorem C5_witness :
    c5PaidNoDocs.payment_status = "paid" ∧ 10 ≤ ("http://id/doc.png").length ∧
    (uploadDocuments c5PaidNoDocs 2 "" "http://id/doc.png" "A1B2C3D4" "E5F6G7H8").2.sender_id_url
      = some (pyTake 500 "http://id/doc.png") :=
  C5_code_generation.2.1 c5PaidNoDocs 2 "" "http://id/doc.png" "A1B2C3D4" "E5F6G7H8"
    (by decide)

/-- C6 counterexample: submitting a manual-family payment stores the
literal payment_status manual_pay, not the claimed manual_review, and
manual_pay is not even a member of the payment-status enumeration the
claim quotes. -/
theorem C6_counterexample :
    (processPayment baseOrder 2 "WISE" "http://r/x.png" "ref-1" false none).2.payment_status
      = "manual_pay" ∧
    ("manual_pay" : String) ≠ "manual_review" ∧
    ("manual_pay" : String) ∉ ["pending", "manual_review", "paid", "failed", "refunded"] := by
  decide

/-- C6 (amended): for an order in pending_payment, submitting a
manual-family payment (bank transfer, Wise, bKash, PayID, mobile
banking) leaves the lifecycle status unchanged at pending_payment and
sets payment_status to the literal value manual_pay — not the value
manual_review named by the spec enumeration — while recording the
truncated receipt URL and payment reference. -/
theorem C6_manual_payment :
    ∀ b uid rawMethod receipt ref g tx, b.buyer_id = uid →
      pyUpper rawMethod ∈ manualPaymentMethods →
      processPayment b uid rawMethod receipt ref g tx
        = (.manualSubmitted,
            { b with
              payment_receipt_url := some (pyTake 500 receipt)
              payment_reference := some (pyTake 255 ref)
              payment_method := pyUpper rawMethod
              payment_status := "manual_pay" }) ∧
      (processPayment b uid rawMethod receipt ref g tx).2.status = b.status := by
  intro b uid rawMethod receipt ref g tx h1 h2
  have hv : pyUpper rawMethod ∈ validPaymentMethods := by
    simp only [manualPaymentMethods, List.mem_cons, List.not_mem_nil, or_false] at h2
    rcases h2 with h | h | h | h | h <;> rw [h] <;> decide
  have hmain : processPayment b uid rawMethod receipt ref g tx
      = (.manualSubmitted,
          { b with
            payment_receipt_url := some (pyTake 500 receipt)
            payment_reference := some (pyTake 255 ref)
            payment_method := pyUpper rawMethod
            payment_status := "manual_pay" }) := by
    simp only [processPayment]
    rw [if_neg (fun hn => hn h1), if_neg (not_not_intro hv), if_pos h2]
  exact ⟨hmain, by rw [hmain]⟩

/-- C6 witness: the amended theorem applied at the concrete Wise
payment submission of the counterexample scenario. -/
theorem C6_witness :
    processPayment baseOrder 2 "WISE" "http://r/x.png" "ref-1" false none
      = (.manualSubmitted,
          { baseOrder with
            payment_receipt_url := some (pyTake 500 "http://r/x.png")
            payment_reference := some (pyTake 255 "ref-1")
            payment_method := pyUpper "WISE"
            payment_status := "manual_pay" }) ∧
    (processPayment baseOrder 2 "WISE" "http://r/x.png" "ref-1" false none).2.status
      = baseOrder.status :=
  C6_manual_payment baseOrder 2 "WISE" "http://r/x.png" "ref-1" false none rfl (by decide)

/-- C7 counterexample: a failed Stripe verification leaves the order
unchanged in pending_payment — there is no transition to
payment_failed on the instant failure path, neither in the payment
processing route nor in the Stripe return handler. -/
theorem C7_counterexample :
    processPayment baseOrder 2 "STRIPE" "" "" false none = (.instantFailed, baseOrder) ∧
    stripeReturn baseOrder false none = baseOrder ∧
    baseOrder.status = "pending_payment" := by
  decide

/-- C7 (amended): when an instant-family payment attempt (Stripe or
PayPal) fails verification the order is left completely unchanged in
pending_payment so the buyer can retry; the lifecycle status
payment_failed is reached only through admin rejection of a manual
payment, which also sets payment_status failed. -/
theorem C7_instant_failure :
    (∀ b uid receipt ref tx, b.buyer_id = uid →
        processPayment b uid "STRIPE" receipt ref false tx = (.instantFailed, b)) ∧
    (∀ b uid receipt ref tx, b.buyer_id = uid →
        processPayment b uid "PAYPAL" receipt ref false tx = (.instantFailed, b)) ∧
    (∀ b tx, stripeReturn b false tx = b) ∧
    (∀ b reasonRaw h d now, pyStrip reasonRaw ≠ "" →
        (adminVerifyPayment b "reject" reasonRaw h d now).2.status = "payment_failed" ∧
        (adminVerifyPayment b "reject" reasonRaw h d now).2.payment_status = "failed") := by
  refine ⟨?_, ?_, ?_, ?_⟩
  · intro b uid receipt ref tx h1
    simp only [processPayment]
    rw [if_neg (fun hn => hn h1), if_neg (by decide), if_neg (by decide)]
    rfl
  · intro b uid receipt ref tx h1
    simp only [processPayment]
    rw [if_neg (fun hn => hn h1), if_neg (by decide), if_neg (by decide)]
    rfl
  · intro b tx
    rfl
  · intro b reasonRaw h d now hr
    simp only [adminVerifyPayment, if_true]
    rw [if_neg hr]
    exact ⟨rfl, rfl⟩

/-- C7 witness: the amended theorem applied at the concrete failed
Stripe attempt of the counterexample scenario. -/
theorem C7_witness :
    processPayment baseOrder 2 "STRIPE" "r" "p" false (some "t") = (.instantFailed, baseOrder) :=
  C7_instant_failure.1 baseOrder 2 "r" "p" (some "t") rfl

/-- C8: a purchase submission whose buyer equals the listing seller
never yields an order row, and when the listing is approved (so the
lookup succeeds and the self-purchase guard, which runs before the
request body is examined, is the check that fires) the rejection is
the explicit self-purchase error. -/
theorem C8_self_purchase :
    ∀ l uid f, l.seller_id = uid →
      (∀ b, processPurchase l uid f ≠ .ok b) ∧
      (l.admin_status = "approved" →
        processPurchase l uid f = .error .selfPurchase) := by
  intro l uid f h
  by_cases ha : l.admin_status = "approved"
  · have he : processPurchase l uid f = .error .selfPurchase := by
      simp only [processPurchase]
      rw [if_neg (not_not_intro ha), if_pos h]
    exact ⟨fun b hb => by rw [he] at hb; exact Except.noConfusion hb, fun _ => he⟩
  · have he : processPurchase l uid f = .error .listingNotFound := by
      simp only [processPurchase]
      rw [if_pos ha]
    exact ⟨fun b hb => by rw [he] at hb; exact Except.noConfusion hb,
      fun hcon => absurd hcon ha⟩

/-- C8 witness: the theorem applied at the concrete listing whose
seller attempts to buy it. -/
theorem C8_witness :
    (∀ b, processPurchase sampleListing 7 sampleForm ≠ .ok b) ∧
    (sampleListing.admin_status = "approved" →
      processPurchase sampleListing 7 sampleForm = .error .selfPurchase) :=
  C8_self_purchase sampleListing 7 sampleForm rfl

/-- C9: with a real generated code stored (8 uppercase alphanumeric
characters, hence non-empty, free of whitespace and a fixed point of
upper), every entry that strips and uppercases to the stored code
passes verification on the category1 route, for both legs. -/
theorem C9_normalized_comparison :
    (∀ sid uid b raw now, sid = uid → b.handover_verified_at = none →
        b.status = "pending_handover" → b.handover_attempts < 5 →
        isGeneratedCode b.handover_code = true →
        normEntered raw = b.handover_code →
        cat1VerifyHandover sid uid b raw now
          = (.success, { b with handover_verified_at := some now, status := "in_transit" })) ∧
    (∀ sid uid b raw now, sid = uid → b.delivery_verified_at = none →
        b.status = "in_transit" → b.delivery_attempts < 5 →
        isGeneratedCode b.delivery_code = true →
        normEntered raw = b.delivery_code →
        cat1VerifyDelivery sid uid b raw now
          = (.success, { b with delivery_verified_at := some now, status := "delivered" })) := by
  constructor
  · intro sid uid b raw now h1 h2 h3 h4 hg hn
    have hne : normEntered raw ≠ "" := by
      rw [hn]
      exact generated_ne_empty hg
    have heq : normEntered raw = pyUpper b.handover_code := by
      rw [hn, pyUpper_of_generated hg]
    simp only [cat1VerifyHandover]
    rw [if_neg (fun hx => hx h1), if_neg (by rw [h2]; simp), if_neg (not_not_intro h3),
      if_neg (by omega), if_neg hne, if_pos heq]
  · intro sid uid b raw now h1 h2 h3 h4 hg hn
    have hne : normEntered raw ≠ "" := by
      rw [hn]
      exact generated_ne_empty hg
    have heq : normEntered raw = pyUpper b.delivery_code := by
      rw [hn, pyUpper_of_generated hg]
    simp only [cat1VerifyDelivery]
    rw [if_neg (fun hx => hx h1), if_neg (by rw [h2]; simp), if_neg (not_not_intro h3),
      if_neg (by omega), if_neg hne, if_pos heq]

/-- Order holding real generated codes after payment and document
upload, awaiting handover verification. -/
def c9Order : BuyerInfo :=
  { baseOrder with
    payment_status := "paid"
    status := "pending_handover"
    handover_code := "A1B2C3D4"
    delivery_code := "E5F6G7H8"
    sender_id_url := some "http://id/doc.png" }

/-- C9 witness: the theorem applied at the concrete lowercase entry
with trailing spaces for the stored code A1B2C3D4. -/
theorem C9_witness :
    cat1VerifyHandover 7 7 c9Order "a1b2c3d4  " 42
      = (.success, { c9Order with handover_verified_at := some 42, status := "in_transit" }) :=
  C9_normalized_comparison.1 7 7 c9Order "a1b2c3d4  " 42 rfl rfl rfl (by decide) (by decide)
    (by decide)

/-- Order on the handover leg that has already consumed all five
attempts on the category1 route without being disputed yet. -/
def c10Exhausted : BuyerInfo :=
  { baseOrder with
    payment_status := "paid"
    status := "pending_handover"
    handover_code := "A1B2C3D4"
    handover_attempts := 5 }

/-- C10 counterexample: a verification request whose submitted code
normalizes to the empty string is not always a no-op. On the category1
route a request arriving with the attempt cap already reached forces
the order to disputed before the submitted code is even examined, so
the empty submission is rejected but the order changes. -/
theorem C10_counterexample :
    normEntered " " = "" ∧
    (cat1VerifyHandover 7 7 c10Exhausted " " 0).2.status = "disputed" ∧
    c10Exhausted.status = "pending_handover" := by
  decide

/-- C10 (amended): a submission normalizing to the empty string never
consumes an attempt, never sets a verified-at timestamp and never
succeeds on any of the four verification routes; on the account routes
the order is always left completely unchanged, and on the category1
routes it is left completely unchanged whenever the attempt counter is
below the cap — a request arriving with the cap already reached is
rejected and moves the status to disputed before the code is read. -/
theorem C10_empty_submission :
    (∀ sid uid b raw photo now, normEntered raw = "" →
        (acctVerifyHandover sid uid b raw photo now).2 = b ∧
        (acctVerifyHandover sid uid b raw photo now).1 ≠ .success) ∧
    (∀ sid uid b raw photo now, normEntered raw = "" →
        (acctVerifyDelivery sid uid b raw photo now).2 = b ∧
        (acctVerifyDelivery sid uid b raw photo now).1 ≠ .success) ∧
    (∀ sid uid b raw now, normEntered raw = "" →
        (cat1VerifyHandover sid uid b raw now).2.handover_attempts = b.handover_attempts ∧
        (cat1VerifyHandover sid uid b raw now).2.handover_verified_at
          = b.handover_verified_at ∧
        (cat1VerifyHandover sid uid b raw now).1 ≠ .success ∧
        (b.handover_attempts < 5 → (cat1VerifyHandover sid uid b raw now).2 = b)) ∧
    (∀ sid uid b raw now, normEntered raw = "" →
        (cat1VerifyDelivery sid uid b raw now).2.delivery_attempts = b.delivery_attempts ∧
        (cat1VerifyDelivery sid uid b raw now).2.delivery_verified_at
          = b.delivery_verified_at ∧
        (cat1VerifyDelivery sid uid b raw now).1 ≠ .success ∧
        (b.delivery_attempts < 5 → (cat1VerifyDelivery sid uid b raw now).2 = b)) := by
  refine ⟨?_, ?_, ?_, ?_⟩
  · intro sid uid b raw photo now he
    simp only [acctVerifyHandover, he]
    split_ifs <;> exact ⟨rfl, fun hx => VerifyResult.noConfusion hx⟩
  · intro sid uid b raw photo now he
    simp only [acctVerifyDelivery, he]
    split_ifs <;> exact ⟨rfl, fun hx => VerifyResult.noConfusion hx⟩
  · intro sid uid b raw now he
    simp only [cat1VerifyHandover, he]
    split_ifs with g1 g2 g3 g4
    · exact ⟨rfl, rfl, fun hx => VerifyResult.noConfusion hx, fun _ => rfl⟩
    · exact ⟨rfl, rfl, fun hx => VerifyResult.noConfusion hx, fun _ => rfl⟩
    · exact ⟨rfl, rfl, fun hx => VerifyResult.noConfusion hx, fun _ => rfl⟩
    · exact ⟨rfl, rfl, fun hx => VerifyResult.noConfusion hx, fun hlt => absurd g4 (by omega)⟩
    · exact ⟨rfl, rfl, fun hx => VerifyResult.noConfusion hx, fun _ => rfl⟩
  · intro sid uid b raw now he
    simp only [cat1VerifyDelivery, he]
    split_ifs with g1 g2 g3 g4
    · exact ⟨rfl, rfl, fun hx => VerifyResult.noConfusion hx, fun _ => rfl⟩
    · exact ⟨rfl, rfl, fun hx => VerifyResult.noConfusion hx, fun _ => rfl⟩
    · exact ⟨rfl, rfl, fun hx => VerifyResult.noConfusion hx, fun _ => rfl⟩
    · exact ⟨rfl, rfl, fun hx => VerifyResult.noConfusion hx, fun hlt => absurd g4 (by omega)⟩
    · exact ⟨rfl, rfl, fun hx => VerifyResult.noConfusion hx, fun _ => rfl⟩

/-- C10 witness: the amended theorem applied at a concrete request
whose submitted code is whitespace only, on an order below the cap. -/
theorem C10_witness :
    (cat1VerifyHandover 7 7 baseOrder "  " 0).2.handover_attempts
      = baseOrder.handover_attempts ∧
    (cat1VerifyHandover 7 7 baseOrder "  " 0).2.handover_verified_at
      = baseOrder.handover_verified_at ∧
    (cat1VerifyHandover 7 7 baseOrder "  " 0).1 ≠ .success ∧
    (baseOrder.handover_attempts < 5 →
      (cat1VerifyHandover 7 7 baseOrder "  " 0).2 = baseOrder) :=
  C10_empty_submission.2.2.1 7 7 baseOrder "  " 0 (by decide)

end MaaExpress
